import Mathlib

/-!
Verification of the measurement-caching and refresh core of the
speedtest exporter (`src/main.py`).

The embedding models:
  * parsed JSON values (`Json`) as produced by Python's `json.loads`;
  * the Python dynamic operations the source uses on them
    (`in`, `[...]` subscription, `int(...)`, `str(...)`, `* 8`),
    each returning `Except PyExc _` since they can raise;
  * the outcome of the `subprocess.check_output` call (`ProcOutcome`):
    exit zero, `CalledProcessError`, or `TimeoutExpired`; the textual
    output is modelled by its JSON parse result (`Option Json`,
    `none` = not valid JSON, which is all `is_json`/`json.loads`
    observe about it);
  * `run_speedtest` (lines 56-98) as a function from the outcome to the
    emitted log entries plus either a raised exception or the returned
    6-tuple;
  * `record_speedtest` (lines 101-122) as a state transformer over the
    gauge registry and the module-level `speedtest_cache_timeout`
    deadline.  The source reads `time.time()` twice (line 109 for the
    expiry check, line 120 for the new deadline), so the model takes
    two timestamps `now1`, `now2`.
-/

/-- A parsed JSON value, as `json.loads` returns it.  Numbers are
modelled as rationals (Python ints and floats). -/
inductive Json where
  | null : Json
  | bool (b : Bool) : Json
  | num (q : ℚ) : Json
  | str (s : String) : Json
  | arr (xs : List Json) : Json
  | obj (kvs : List (String × Json)) : Json

/-- Python exceptions that the modelled operations can raise. -/
inductive PyExc where
  | keyError (k : String) : PyExc
  | typeError : PyExc
  | valueError : PyExc
  | timeoutExpired : PyExc
deriving DecidableEq

inductive LogLevel where
  | error : LogLevel
  | info : LogLevel
deriving DecidableEq

structure LogEntry where
  level : LogLevel
  msg : String
deriving DecidableEq

/-- Last-key-wins lookup in a JSON object: `json.loads` builds a Python
dict, in which a duplicated key keeps the last occurrence. -/
def objGet : List (String × Json) → String → Option Json
  | [], _ => none
  | (k1, v) :: rest, k =>
      match objGet rest k with
      | some w => some w
      | none => if k1 == k then some v else none

/-- Key membership in a JSON object (Python `k in dict`). -/
def objHasKey : List (String × Json) → String → Bool
  | [], _ => false
  | (k1, _) :: rest, k => k1 == k || objHasKey rest k

/-- Python `==` between a parsed JSON value and a string literal: only a
string with the same contents compares equal. -/
def Json.eqStr : Json → String → Bool
  | .str a, b => a == b
  | _, _ => false

/-- Python `k in x` for a parsed JSON value `x`: key membership for a
dict, element equality for a list, substring test for a string,
`TypeError` otherwise. -/
def pyContains (j : Json) (k : String) : Except PyExc Bool :=
  match j with
  | .obj kvs => .ok (objHasKey kvs k)
  | .arr xs => .ok (xs.any (fun x => Json.eqStr x k))
  | .str s => .ok (1 < (s.splitOn k).length)
  | _ => .error .typeError

/-- Python `x[k]` with a string key: dict lookup (`KeyError` when the
key is absent), `TypeError` on every other value (string and list
subscripts require integers). -/
def pySubscript (j : Json) (k : String) : Except PyExc Json :=
  match j with
  | .obj kvs =>
      match objGet kvs k with
      | some v => .ok v
      | none => .error (.keyError k)
  | _ => .error .typeError

/-- Python `int(x)` on a parsed JSON value: truncation toward zero for a
number, decimal parse for a string (`ValueError` on failure), 0/1 for a
bool, `TypeError` otherwise. -/
def pyInt (j : Json) : Except PyExc Int :=
  match j with
  | .num q => .ok (if 0 ≤ q then ⌊q⌋ else ⌈q⌉)
  | .str s =>
      match s.trim.toInt? with
      | some n => .ok n
      | none => .error .valueError
  | .bool b => .ok (if b then 1 else 0)
  | _ => .error .typeError

/-- Python `str(x)` on a parsed JSON value.  Containers are rendered
coarsely; no claim depends on the rendering of containers. -/
def pyStr : Json → String
  | .null => "None"
  | .bool true => "True"
  | .bool false => "False"
  | .num q => toString q
  | .str s => s
  | .arr _ => "[...]"
  | .obj _ => "\x7b...\x7d"

/-- Python `x * 8` (the body of `bytes_to_bits`): numeric multiplication
for numbers and bools, repetition for strings and lists, `TypeError`
for `None` and dicts. -/
def pyMul8 (j : Json) : Except PyExc Json :=
  match j with
  | .num q => .ok (.num (q * 8))
  | .bool b => .ok (.num (if b then 8 else 0))
  | .str s => .ok (.str (String.join (List.replicate 8 s)))
  | .arr xs => .ok (.arr (List.flatten (List.replicate 8 xs)))
  | _ => .error .typeError

/-- `bytes_to_bits` (src/main.py lines 37-38): `bytes_per_sec * 8`. -/
def bytes_to_bits (bytes_per_sec : Json) : Except PyExc Json :=
  pyMul8 bytes_per_sec

/-- The 6-tuple returned by `run_speedtest`:
`(server, jitter, ping, download, upload, status)`.  The server id has
been through `int(...)`; jitter, ping and the two throughputs are the
raw (or `* 8`-multiplied) JSON values; the status flag is the literal
`0` or `1`. -/
structure SpeedTuple where
  server : Int
  jitter : Json
  ping : Json
  download : Json
  upload : Json
  status : Int

/-- The failure tuple `(0, 0, 0, 0, 0, 0)`. -/
def zeroTuple : SpeedTuple :=
  ⟨0, .num 0, .num 0, .num 0, .num 0, 0⟩

/-- The extraction chain of the `"result"` branch
(src/main.py lines 90-95), in source evaluation order; any missing
field or failed conversion raises. -/
def extractResult (data : Json) : Except PyExc SpeedTuple := do
  let serverObj ← pySubscript data "server"
  let serverIdJson ← pySubscript serverObj "id"
  let actual_server ← pyInt serverIdJson
  let pingObj1 ← pySubscript data "ping"
  let actual_jitter ← pySubscript pingObj1 "jitter"
  let pingObj2 ← pySubscript data "ping"
  let actual_ping ← pySubscript pingObj2 "latency"
  let downloadObj ← pySubscript data "download"
  let downloadBw ← pySubscript downloadObj "bandwidth"
  let actual_download_speed ← bytes_to_bits downloadBw
  let uploadObj ← pySubscript data "upload"
  let uploadBw ← pySubscript uploadObj "bandwidth"
  let actual_upload_speed ← bytes_to_bits uploadBw
  return ⟨actual_server, actual_jitter, actual_ping,
          actual_download_speed, actual_upload_speed, 1⟩

/-- src/main.py lines 77-98: the handling of output that parsed as JSON
(`data = json.loads(output)` succeeded).  Returns the log entries
emitted before returning or raising, and the tuple or the exception. -/
def handle_json (data : Json) : List LogEntry × Except PyExc SpeedTuple :=
  match pyContains data "error" with
  | .error e => ([], .error e)
  | .ok true =>
      match pySubscript data "error" with
      | .error e => ([⟨.error, "Socker error while speedtest."⟩], .error e)
      | .ok ev =>
          ([⟨.error, "Socker error while speedtest."⟩, ⟨.error, pyStr ev⟩],
           .ok zeroTuple)
  | .ok false =>
      match pyContains data "type" with
      | .error e => ([], .error e)
      | .ok false =>
          ([⟨.error, "Successfull speedtest had no json result."⟩], .ok zeroTuple)
      | .ok true =>
          match pySubscript data "type" with
          | .error e => ([], .error e)
          | .ok tv =>
              match
                (if tv.eqStr "log" then
                  match pySubscript data "timestamp" with
                  | .error e => (([] : List LogEntry), some e)
                  | .ok ts =>
                      match pySubscript data "message" with
                      | .error e => ([], some e)
                      | .ok m =>
                          ([⟨.info, pyStr ts ++ " - " ++ pyStr m⟩], none)
                 else ([], none)) with
              | (lgs, some e) => (lgs, .error e)
              | (lgs, none) =>
                  if tv.eqStr "result" then
                    match extractResult data with
                    | .error e => (lgs, .error e)
                    | .ok t => (lgs, .ok t)
                  else
                    (lgs ++ [⟨.error, "Successfull speedtest had no json result."⟩],
                     .ok zeroTuple)

/-- Outcome of `subprocess.check_output(cmd, timeout=timeout)`.  The
produced output is represented by its JSON parse result: `none` means
the bytes were not valid JSON (all that `is_json` and `json.loads`
observe about them). -/
inductive ProcOutcome where
  | ok (parsed : Option Json) : ProcOutcome
  | fail (parsed : Option Json) : ProcOutcome
  | timeout : ProcOutcome

/-- `is_json` (src/main.py lines 46-53) on an output modelled by its
parse result. -/
def is_json (parsed : Option Json) : Bool :=
  parsed.isSome

/-- The command line built by `run_speedtest` (src/main.py lines 57-66). -/
def speedtest_cmd (server_id : Option String) : List String :=
  ["speedtest", "--format=json-pretty", "--progress=no",
   "--accept-license", "--accept-gdpr"] ++
  (match server_id with
   | some s => ["--server-id=" ++ s]
   | none => [])

/-- `run_speedtest` (src/main.py lines 56-98).  The `try` catches only
`subprocess.CalledProcessError`; a `TimeoutExpired` propagates to the
caller uncaught.  On `CalledProcessError` with non-JSON output the
error is logged and the zero tuple returned; otherwise the parsed
output (from either exit path) is handled by lines 77-98. -/
def run_speedtest (server_id : Option String) (oc : ProcOutcome) :
    List LogEntry × Except PyExc SpeedTuple :=
  match oc with
  | .timeout => ([], .error .timeoutExpired)
  | .fail none =>
      ([⟨.error, "Speedtest CLI error not in JSON format."⟩], .ok zeroTuple)
  | .fail (some data) => handle_json data
  | .ok none =>
      ([⟨.error, "Successfull speedtest had no json result."⟩], .ok zeroTuple)
  | .ok (some data) => handle_json data

/-- The three environment variables read by `record_speedtest`
(src/main.py lines 105-107), after `int(...)` conversion where the
source applies it. -/
structure EnvConfig where
  cache_timeout : Int
  speedtest_server : Option String
  run_timeout : Int

/-- `bits_to_megabits` (src/main.py lines 41-43):
`round(bits_per_sec * (10 ** -6), 2)`.  `10 ** -6` is a float, so the
multiplication raises `TypeError` on any non-numeric value (string,
list, `None`, object); on numbers and bools it yields the rounded
megabit value.  The numeric result feeds only the line-111 log text,
which no claim inspects, so the model keeps the raise/no-raise
behaviour of the call and not the rounded float. -/
def bits_to_megabits (bits_per_sec : Json) : Except PyExc Unit :=
  match bits_per_sec with
  | .num _ => .ok ()
  | .bool _ => .ok ()
  | _ => .error .typeError

/-- Decimal float-literal parse used by `pyFloat` on strings: optional
sign, then digits with an optional fractional part.  Exponents, `inf`
and `nan` are not modelled (like the `pyInt` string parse, this is an
approximation of the Python literal syntax; no claim exercises a
string at a gauge write). -/
def floatOfString (s : String) : Option ℚ :=
  let core : String → Option ℚ := fun t =>
    match t.splitOn "." with
    | [a] => (a.toNat?).map (fun n => (n : ℚ))
    | [a, b] =>
        if a.isEmpty && b.isEmpty then none
        else
          match (if a.isEmpty then some 0 else a.toNat?),
                (if b.isEmpty then some 0 else b.toNat?) with
          | some n, some f => some ((n : ℚ) + (f : ℚ) / (10 : ℚ) ^ b.length)
          | _, _ => none
    | _ => none
  if s.startsWith "-" then (core (s.drop 1)).map Neg.neg
  else if s.startsWith "+" then core (s.drop 1)
  else core s

/-- Python `float(x)`, the coercion `prometheus_client`'s `Gauge.set`
applies to its argument before storing it: identity on numbers, 0/1 on
bools, float-literal parse for strings (`ValueError` on failure),
`TypeError` on `None`, lists and objects. -/
def pyFloat : Json → Except PyExc ℚ
  | .num q => .ok q
  | .bool b => .ok (if b then 1 else 0)
  | .str s =>
      match floatOfString s.trim with
      | some q => .ok q
      | none => .error .valueError
  | .null => .error .typeError
  | .arr _ => .error .typeError
  | .obj _ => .error .typeError

/-- Whether every measured component of a tuple is a JSON number, as
valid tool output yields; such components pass the line-111
`bits_to_megabits` calls and the `float(...)` coercion of `Gauge.set`
unchanged. -/
def SpeedTuple.numeric (t : SpeedTuple) : Bool :=
  (match t.jitter with | .num _ => true | _ => false) &&
  (match t.ping with | .num _ => true | _ => false) &&
  (match t.download with | .num _ => true | _ => false) &&
  (match t.upload with | .num _ => true | _ => false)

/-- Process-wide mutable state touched by `record_speedtest`: the six
gauges of the metrics registry (each holding the `float(...)` of the
last value written to it, a number represented as `Json.num`; the
server and status gauges come from the tuple's `Int` fields) and the
module-level `speedtest_cache_timeout` deadline (src/main.py line 34,
a `time.time()` value). -/
structure ExporterState where
  gauges : SpeedTuple
  speedtest_cache_timeout : ℚ

/-- `record_speedtest` (src/main.py lines 101-122).  `now1` is the
`time.time()` of the expiry check (line 109); `now2` is the separate
`time.time()` read at line 120, taken after the probe, that the new
deadline is computed from.  Returns the state after the call, the
served registry snapshot (what `make_wsgi_app` renders) or the
propagated exception, and whether the probe branch ran.

Raise points of the refresh block, in source order, all escaping to
the server layer with the deadline unchanged:
a raise from `run_speedtest` itself (line 110, nothing written); a
`TypeError` from the two `bits_to_megabits` calls evaluated left to
right inside the line-111 f-string (nothing written; the info log's
text is otherwise not modelled, only the evaluation of its arguments);
and a raise from the `float(...)` coercion in one of the `Gauge.set`
calls of lines 113-118, which leaves the gauges already set holding
their new values and the later ones stale.  `server.set` and
`status.set` receive `Int` values, whose coercion cannot fail. -/
def record_speedtest (env : EnvConfig) (oc : ProcOutcome) (now1 now2 : ℚ)
    (s : ExporterState) : ExporterState × Except PyExc SpeedTuple × Bool :=
  if now1 > s.speedtest_cache_timeout then
    match (run_speedtest env.speedtest_server oc).2 with
    | .error e => (s, .error e, true)
    | .ok t =>
        match bits_to_megabits t.download with
        | .error e => (s, .error e, true)
        | .ok _ =>
        match bits_to_megabits t.upload with
        | .error e => (s, .error e, true)
        | .ok _ =>
        match pyFloat t.jitter with
        | .error e =>
            (⟨⟨t.server, s.gauges.jitter, s.gauges.ping, s.gauges.download,
               s.gauges.upload, s.gauges.status⟩, s.speedtest_cache_timeout⟩,
             .error e, true)
        | .ok jq =>
        match pyFloat t.ping with
        | .error e =>
            (⟨⟨t.server, .num jq, s.gauges.ping, s.gauges.download,
               s.gauges.upload, s.gauges.status⟩, s.speedtest_cache_timeout⟩,
             .error e, true)
        | .ok pq =>
        match pyFloat t.download with
        | .error e =>
            (⟨⟨t.server, .num jq, .num pq, s.gauges.download,
               s.gauges.upload, s.gauges.status⟩, s.speedtest_cache_timeout⟩,
             .error e, true)
        | .ok dq =>
        match pyFloat t.upload with
        | .error e =>
            (⟨⟨t.server, .num jq, .num pq, .num dq,
               s.gauges.upload, s.gauges.status⟩, s.speedtest_cache_timeout⟩,
             .error e, true)
        | .ok uq =>
            (⟨⟨t.server, .num jq, .num pq, .num dq, .num uq, t.status⟩,
              now2 + (env.cache_timeout : ℚ)⟩,
             .ok ⟨t.server, .num jq, .num pq, .num dq, .num uq, t.status⟩, true)
  else
    (s, .ok s.gauges, false)

/-! ### Interleaving model for concurrent scrapes

`record_speedtest` runs on whichever server thread handles the scrape;
src/main.py takes no lock.  A thread's execution of the expired path
splits into two atomic pieces of shared-state access: the line-109 read
of `speedtest_cache_timeout` and comparison, and the lines 110-120
probe/write block.  `raceStep` is one such piece; `runRace` runs two
threads under an explicit schedule. -/

inductive RacePC where
  | start : RacePC
  | expired : RacePC
  | finished : RacePC
deriving DecidableEq

/-- Shared state visible to both threads: the deadline and the number of
probe invocations performed so far. -/
structure RaceShared where
  deadline : ℚ
  probeCount : Nat
deriving DecidableEq

/-- One atomic step of one thread executing `record_speedtest`:
from `start`, the line-109 check against the shared deadline; from
`expired`, the lines 110-120 block (probe, gauge writes, deadline
update). -/
def raceStep (ttl now1 now2 : ℚ) (sh : RaceShared) (pc : RacePC) :
    RaceShared × RacePC :=
  match pc with
  | .start =>
      if now1 > sh.deadline then (sh, .expired) else (sh, .finished)
  | .expired =>
      (⟨now2 + ttl, sh.probeCount + 1⟩, .finished)
  | .finished => (sh, .finished)

/-- Run two threads under a schedule (`false` = thread 0 steps,
`true` = thread 1 steps).  Both threads handle scrapes arriving at the
same time `now1`. -/
def runRace (ttl now1 now2 : ℚ) :
    List Bool → RaceShared → RacePC → RacePC → RaceShared × RacePC × RacePC
  | [], sh, pc0, pc1 => (sh, pc0, pc1)
  | b :: rest, sh, pc0, pc1 =>
      if b then
        let st := raceStep ttl now1 now2 sh pc1
        runRace ttl now1 now2 rest st.1 pc0 st.2
      else
        let st := raceStep ttl now1 now2 sh pc0
        runRace ttl now1 now2 rest st.1 st.2 pc1

/-! ### Event shapes produced by the external tool -/

/-- A result event with the five documented payload fields. -/
def resultEvent (serverId jitterV latencyV downloadBw uploadBw : Json) : Json :=
  .obj [("type", .str "result"),
        ("server", .obj [("id", serverId)]),
        ("ping", .obj [("jitter", jitterV), ("latency", latencyV)]),
        ("download", .obj [("bandwidth", downloadBw)]),
        ("upload", .obj [("bandwidth", uploadBw)])]

/-- Whether `pyMul8` succeeds on this value (Python `x * 8` does not
raise). -/
def mul8OK : Json → Bool
  | .num _ => true
  | .bool _ => true
  | .str _ => true
  | .arr _ => true
  | _ => false

/-- Whether Python `int(x)` succeeds on this value. -/
def intConvertible : Json → Bool
  | .num _ => true
  | .str s => s.trim.toInt?.isSome
  | .bool _ => true
  | _ => false

/-- A `k` entry that is an object with a `"bandwidth"` field on which
`* 8` succeeds. -/
def bandwidthOK (kvs : List (String × Json)) (k : String) : Bool :=
  match objGet kvs k with
  | some (.obj dkvs) =>
      match objGet dkvs "bandwidth" with
      | some bv => mul8OK bv
      | none => false
  | _ => false

/-- The payload fields a `"result"` event must carry for the extraction
chain of lines 90-95 to succeed. -/
def resultFieldsOK (kvs : List (String × Json)) : Bool :=
  (match objGet kvs "server" with
   | some (.obj skvs) =>
       match objGet skvs "id" with
       | some idv => intConvertible idv
       | none => false
   | _ => false) &&
  (match objGet kvs "ping" with
   | some (.obj pkvs) => objHasKey pkvs "jitter" && objHasKey pkvs "latency"
   | _ => false) &&
  bandwidthOK kvs "download" && bandwidthOK kvs "upload"

/-- A well-formed event object, as the external tool's documented output
shapes: an error payload, a log event (with its timestamp and message),
a result event with the full payload, or any object of another or no
recognised type. -/
def wellFormedEvent (d : Json) : Bool :=
  match d with
  | .obj kvs =>
      if objHasKey kvs "error" then true
      else
        match objGet kvs "type" with
        | none => true
        | some tv =>
            if tv.eqStr "log" then
              objHasKey kvs "timestamp" && objHasKey kvs "message"
            else if tv.eqStr "result" then resultFieldsOK kvs
            else true
  | _ => false

/-- A tool-invocation outcome as the external tool can produce it:
a timeout, non-JSON output (from either exit path), or a well-formed
event object. -/
def recognizedOutcome : ProcOutcome → Bool
  | .ok none => true
  | .fail none => true
  | .ok (some d) => wellFormedEvent d
  | .fail (some d) => wellFormedEvent d
  | .timeout => false

/-- Whether the parsed output is a result event that reaches the
extraction branch: an object with no `"error"` key whose `"type"` entry
equals `"result"`. -/
def isResultEventJson : Option Json → Bool
  | some (.obj kvs) =>
      !objHasKey kvs "error" &&
      (match objGet kvs "type" with
       | some tv => tv.eqStr "result"
       | none => false)
  | _ => false

def ProcOutcome.isResultEvent : ProcOutcome → Bool
  | .ok po => isResultEventJson po
  | .fail po => isResultEventJson po
  | .timeout => false

/-! ### Helper lemmas -/

theorem objHasKey_eq_isSome (kvs : List (String × Json)) (k : String) :
    objHasKey kvs k = (objGet kvs k).isSome := by
  induction kvs with
  | nil => rfl
  | cons hd tl ih =>
      obtain ⟨k1, v⟩ := hd
      simp only [objHasKey, objGet, ih]
      cases h : objGet tl k with
      | some w => simp [h]
      | none =>
          by_cases hk : (k1 == k) = true
          · simp [h, hk]
          · simp [h, hk]

theorem objGet_of_hasKey {kvs : List (String × Json)} {k : String}
    (h : objHasKey kvs k = true) : ∃ v, objGet kvs k = some v := by
  rw [objHasKey_eq_isSome] at h
  exact Option.isSome_iff_exists.mp h

theorem objGet_eq_none_of_not_hasKey {kvs : List (String × Json)} {k : String}
    (h : objHasKey kvs k = false) : objGet kvs k = none := by
  rw [objHasKey_eq_isSome] at h
  exact Option.not_isSome_iff_eq_none.mp (by simp [h])

theorem Json.eqStr_true {j : Json} {s : String} (h : Json.eqStr j s = true) :
    j = .str s := by
  cases j <;> simp [Json.eqStr] at h
  subst h
  rfl

theorem pyInt_ok_of_intConvertible {j : Json} (h : intConvertible j = true) :
    ∃ n, pyInt j = .ok n := by
  cases j with
  | num q => exact ⟨_, rfl⟩
  | str s =>
      simp only [intConvertible] at h
      obtain ⟨n, hn⟩ := Option.isSome_iff_exists.mp h
      exact ⟨n, by simp [pyInt, hn]⟩
  | bool b => exact ⟨_, rfl⟩
  | null => simp [intConvertible] at h
  | arr xs => simp [intConvertible] at h
  | obj kvs => simp [intConvertible] at h

theorem pyMul8_ok_of_mul8OK {j : Json} (h : mul8OK j = true) :
    ∃ v, pyMul8 j = .ok v := by
  cases j <;> first
    | exact ⟨_, rfl⟩
    | simp [mul8OK] at h


theorem extractResult_status {d : Json} {t : SpeedTuple}
    (h : extractResult d = .ok t) : t.status = 1 := by
  simp only [extractResult, bind, Except.bind, Functor.map, Except.map, pure,
    Except.pure] at h
  repeat' split at h
  all_goals first
    | exact Except.noConfusion h
    | (injection h with h1; subst h1; rfl)

theorem extractResult_ok_of_fieldsOK {kvs : List (String × Json)}
    (h : resultFieldsOK kvs = true) :
    ∃ t, extractResult (Json.obj kvs) = .ok t := by
  simp only [resultFieldsOK, Bool.and_eq_true] at h
  obtain ⟨⟨⟨hs, hp⟩, hd⟩, hu⟩ := h
  rw [bandwidthOK] at hd hu
  rcases hserver : objGet kvs "server" with _ | sv <;> rw [hserver] at hs
  · simp at hs
  rcases sv with _ | b | q | s | xs | skvs <;> try simp at hs
  rcases hid : objGet skvs "id" with _ | idv <;> rw [hid] at hs
  · simp at hs
  obtain ⟨sn, hsn⟩ := pyInt_ok_of_intConvertible hs
  rcases hping : objGet kvs "ping" with _ | pv <;> rw [hping] at hp
  · simp at hp
  rcases pv with _ | b | q | s | xs | pkvs <;> try simp at hp
  obtain ⟨hpj, hpl⟩ := hp
  obtain ⟨jv, hjv⟩ := objGet_of_hasKey hpj
  obtain ⟨lv, hlv⟩ := objGet_of_hasKey hpl
  rcases hdl : objGet kvs "download" with _ | dv <;> rw [hdl] at hd
  · simp at hd
  rcases dv with _ | b | q | s | xs | dkvs <;> try simp at hd
  rcases hdbw : objGet dkvs "bandwidth" with _ | dbv <;> rw [hdbw] at hd
  · simp at hd
  obtain ⟨dmv, hdmv⟩ := pyMul8_ok_of_mul8OK hd
  rcases hul : objGet kvs "upload" with _ | uv <;> rw [hul] at hu
  · simp at hu
  rcases uv with _ | b | q | s | xs | ukvs <;> try simp at hu
  rcases hubw : objGet ukvs "bandwidth" with _ | ubv <;> rw [hubw] at hu
  · simp at hu
  obtain ⟨umv, humv⟩ := pyMul8_ok_of_mul8OK hu
  simp [extractResult, bind, Except.bind, Functor.map, Except.map, pure, Except.pure,
    pySubscript, bytes_to_bits, hserver, hid, hsn, hping, hjv, hlv, hdl, hdbw, hdmv,
    hul, hubw, humv]

theorem handle_json_wf {d : Json} (h : wellFormedEvent d = true) :
    ∃ t, (handle_json d).2 = .ok t ∧
      (isResultEventJson (some d) = true → t.status = 1) ∧
      (isResultEventJson (some d) = false → t = zeroTuple) := by
  rcases d with _ | b | q | s | xs | kvs <;> try simp [wellFormedEvent] at h
  by_cases herr : objHasKey kvs "error" = true
  · obtain ⟨v, hv⟩ := objGet_of_hasKey herr
    refine ⟨zeroTuple, ?_, ?_, fun _ => rfl⟩
    · simp [handle_json, pyContains, pySubscript, herr, hv]
    · simp [isResultEventJson, herr]
  · have herr0 : objHasKey kvs "error" = false := by simpa using herr
    by_cases htype : objHasKey kvs "type" = true
    · obtain ⟨tv, htv⟩ := objGet_of_hasKey htype
      simp only [wellFormedEvent, herr0, htv, Bool.false_eq_true, if_false] at h
      by_cases hlog : tv.eqStr "log" = true
      · have htvs := Json.eqStr_true hlog
        subst htvs
        simp +decide [Json.eqStr] at h
        obtain ⟨hts, hm⟩ := h
        obtain ⟨ts, hts2⟩ := objGet_of_hasKey hts
        obtain ⟨m, hm2⟩ := objGet_of_hasKey hm
        refine ⟨zeroTuple, ?_, ?_, fun _ => rfl⟩
        · simp +decide [handle_json, pyContains, pySubscript, herr0, htype, htv,
            hts2, hm2, Json.eqStr]
        · simp +decide [isResultEventJson, herr0, htv, Json.eqStr]
      · by_cases hres : tv.eqStr "result" = true
        · have htvs := Json.eqStr_true hres
          subst htvs
          simp +decide [Json.eqStr] at h
          obtain ⟨t, ht⟩ := extractResult_ok_of_fieldsOK h
          refine ⟨t, ?_, fun _ => extractResult_status ht, ?_⟩
          · simp +decide [handle_json, pyContains, pySubscript, herr0, htype, htv,
              ht, Json.eqStr]
          · intro hfalse
            exfalso
            simp +decide [isResultEventJson, herr0, htv, Json.eqStr] at hfalse
        · refine ⟨zeroTuple, ?_, ?_, fun _ => rfl⟩
          · simp [handle_json, pyContains, pySubscript, herr0, htype, htv, hlog, hres]
          · simp [isResultEventJson, herr0, htv, hres]
    · have htype0 : objHasKey kvs "type" = false := by simpa using htype
      have htv := objGet_eq_none_of_not_hasKey htype0
      refine ⟨zeroTuple, ?_, ?_, fun _ => rfl⟩
      · simp [handle_json, pyContains, pySubscript, herr0, htype0]
      · simp [isResultEventJson, herr0, htv]

/-! ### Claim theorems -/

/-- C1 counterexample: when the external process exceeds the configured
timeout, `run_speedtest` does not return a `success = false` result; the
`subprocess.TimeoutExpired` exception propagates to the caller, because
the `try` at line 68 catches only `CalledProcessError`. -/
theorem run_speedtest_timeout_raises :
    (run_speedtest none ProcOutcome.timeout).2 =
      Except.error PyExc.timeoutExpired := rfl

/-- C1 (amended): for every configuration and every non-timeout outcome
of the tool invocation whose output is non-JSON or a well-formed event
object, `run_speedtest` returns a well-formed tuple without raising:
status 1 for a result event and the all-zero failure tuple otherwise.
A timeout, by contrast, raises `subprocess.TimeoutExpired` outward. -/
theorem run_speedtest_failure_is_data (sid : Option String) (oc : ProcOutcome)
    (hnt : oc ≠ ProcOutcome.timeout) (hw : recognizedOutcome oc = true) :
    ∃ t : SpeedTuple, (run_speedtest sid oc).2 = .ok t ∧
      (oc.isResultEvent = true → t.status = 1) ∧
      (oc.isResultEvent = false → t = zeroTuple) := by
  cases oc with
  | timeout => exact absurd rfl hnt
  | ok po =>
      cases po with
      | none =>
          exact ⟨zeroTuple, rfl,
            by simp [ProcOutcome.isResultEvent, isResultEventJson], fun _ => rfl⟩
      | some d => exact handle_json_wf hw
  | fail po =>
      cases po with
      | none =>
          exact ⟨zeroTuple, rfl,
            by simp [ProcOutcome.isResultEvent, isResultEventJson], fun _ => rfl⟩
      | some d => exact handle_json_wf hw

/-- C1 witness: a non-zero exit with non-JSON output yields the all-zero
failure tuple. -/
theorem run_speedtest_failure_is_data_witness :
    ∃ t : SpeedTuple, (run_speedtest none (ProcOutcome.fail none)).2 = .ok t ∧
      ((ProcOutcome.fail none).isResultEvent = true → t.status = 1) ∧
      ((ProcOutcome.fail none).isResultEvent = false → t = zeroTuple) :=
  run_speedtest_failure_is_data none (ProcOutcome.fail none)
    (fun h => ProcOutcome.noConfusion h) rfl

/-- C2 counterexample: with the deadline at 100 and the clock exactly at
100 (`now == valid_until`), no refresh is triggered — line 109 compares
with strict `>`, so the boundary is exclusive, not inclusive. -/
theorem expiry_boundary_counterexample :
    (record_speedtest ⟨900, none, 90⟩ (ProcOutcome.fail none) 100 100
      ⟨zeroTuple, 100⟩).2.2 = false := by
  simp [record_speedtest]

/-- C2 (amended): `record_speedtest` triggers a refresh exactly when
`now > valid_until` (strict); in particular no refresh happens at
`now == valid_until` nor at `now == valid_until - 1`. -/
theorem record_speedtest_refresh_iff (env : EnvConfig) (oc : ProcOutcome)
    (now1 now2 : ℚ) (s : ExporterState) :
    (record_speedtest env oc now1 now2 s).2.2 = true ↔
      now1 > s.speedtest_cache_timeout := by
  unfold record_speedtest
  split
  · repeat' split
    all_goals simp_all
  · simp_all

/-- C3: for every valid result event the stored download and upload
throughputs are exactly the byte-based bandwidths multiplied by 8, with
no rounding, and jitter and latency pass through unmodified; on the
concrete example bandwidths 12500000 and 1250000 become 100000000 and
10000000 bits per second with status 1. -/
theorem result_event_exact_conversion :
    (∀ (sid : Option String) (sv : Int) (j p : Json) (d u : ℚ),
      (run_speedtest sid (ProcOutcome.ok (some
          (resultEvent (.num (sv : ℚ)) j p (.num d) (.num u))))).2
        = .ok ⟨sv, j, p, .num (d * 8), .num (u * 8), 1⟩) ∧
    (run_speedtest none (ProcOutcome.ok (some
        (resultEvent (.num 1234) (.num 1.5) (.num 10.2)
          (.num 12500000) (.num 1250000))))).2
      = .ok ⟨1234, .num 1.5, .num 10.2, .num 100000000, .num 10000000, 1⟩ := by
  constructor
  · intro sid sv j p d u
    have hsv : (if (0:ℚ) ≤ (sv : ℚ) then ⌊(sv : ℚ)⌋ else ⌈(sv : ℚ)⌉) = sv := by
      split <;> simp
    simp +decide [run_speedtest, handle_json, extractResult, pySubscript, objGet,
      pyContains, objHasKey, pyInt, bytes_to_bits, pyMul8, resultEvent, Json.eqStr,
      bind, Except.bind, Functor.map, Except.map, pure, Except.pure, hsv]
  · simp +decide [run_speedtest, handle_json, extractResult, pySubscript, objGet,
      pyContains, objHasKey, pyInt, bytes_to_bits, pyMul8, resultEvent, Json.eqStr,
      bind, Except.bind, Functor.map, Except.map, pure, Except.pure]
    norm_num

/-- C4: non-JSON output (from a zero or a non-zero exit) and JSON output
containing an `error` field all produce the all-zero failure tuple. -/
theorem run_speedtest_malformed_or_error_zero (sid : Option String) :
    ((run_speedtest sid (ProcOutcome.ok none)).2 = .ok zeroTuple) ∧
    ((run_speedtest sid (ProcOutcome.fail none)).2 = .ok zeroTuple) ∧
    (∀ kvs : List (String × Json), objHasKey kvs "error" = true →
      (run_speedtest sid (ProcOutcome.ok (some (.obj kvs)))).2 = .ok zeroTuple) ∧
    (∀ kvs : List (String × Json), objHasKey kvs "error" = true →
      (run_speedtest sid (ProcOutcome.fail (some (.obj kvs)))).2 = .ok zeroTuple) := by
  refine ⟨rfl, rfl, ?_, ?_⟩ <;>
    · intro kvs h
      obtain ⟨v, hv⟩ := objGet_of_hasKey h
      simp [run_speedtest, handle_json, pyContains, pySubscript, h, hv]

/-- C4 witness: a JSON error payload yields the all-zero failure tuple. -/
theorem run_speedtest_malformed_or_error_zero_witness :
    (run_speedtest none (ProcOutcome.ok (some
        (.obj [("error", .str "socket fail")])))).2 = .ok zeroTuple :=
  (run_speedtest_malformed_or_error_zero none).2.2.1
    [("error", .str "socket fail")] rfl

/-- C5: an output consisting only of a log event (no error field, type
`"log"`, carrying its timestamp and message) is logged at informational
level, and the call returns the all-zero failure tuple after also
logging that no usable result was produced — a single pass, with no
waiting for a later result event. -/
theorem log_event_logged_and_failure (sid : Option String)
    (kvs : List (String × Json)) (ts m : Json)
    (herr : objHasKey kvs "error" = false)
    (htv : objGet kvs "type" = some (.str "log"))
    (hts : objGet kvs "timestamp" = some ts)
    (hm : objGet kvs "message" = some m) :
    run_speedtest sid (ProcOutcome.ok (some (.obj kvs))) =
      ([⟨.info, pyStr ts ++ " - " ++ pyStr m⟩,
        ⟨.error, "Successfull speedtest had no json result."⟩], .ok zeroTuple) := by
  have htype : objHasKey kvs "type" = true := by
    rw [objHasKey_eq_isSome, htv]
    rfl
  simp +decide [run_speedtest, handle_json, pyContains, pySubscript, herr, htype,
    htv, hts, hm, Json.eqStr]

/-- C5 witness: a concrete log-only output. -/
theorem log_event_logged_and_failure_witness :
    run_speedtest none (ProcOutcome.ok (some (.obj
        [("type", .str "log"), ("timestamp", .str "T1"), ("message", .str "m1")]))) =
      ([⟨.info, "T1 - m1"⟩,
        ⟨.error, "Successfull speedtest had no json result."⟩], .ok zeroTuple) := by
  have h := log_event_logged_and_failure none
    [("type", .str "log"), ("timestamp", .str "T1"), ("message", .str "m1")]
    (.str "T1") (.str "m1") rfl rfl rfl rfl
  simpa [pyStr] using h

/-- C6: with a non-negative ttl and a probe that returns a tuple whose
measured components are numbers (as valid tool output yields — a
non-numeric component would instead raise in the line-111 log call or
in `Gauge.set` before the deadline is written), two calls at the same
`now` against an expired cache perform exactly one probe invocation
(the first call probes, the second serves the cache) and both return
the same tuple. -/
theorem cache_idempotent_same_now (env : EnvConfig) (oc oc2 : ProcOutcome)
    (now : ℚ) (s : ExporterState) (t : SpeedTuple)
    (hrun : (run_speedtest env.speedtest_server oc).2 = .ok t)
    (hnum : t.numeric = true)
    (hexp : now > s.speedtest_cache_timeout)
    (httl : 0 ≤ env.cache_timeout) :
    record_speedtest env oc now now s =
      (⟨t, now + (env.cache_timeout : ℚ)⟩, .ok t, true) ∧
    record_speedtest env oc2 now now ⟨t, now + (env.cache_timeout : ℚ)⟩ =
      (⟨t, now + (env.cache_timeout : ℚ)⟩, .ok t, false) := by
  obtain ⟨sv, j, p, d, u, st⟩ := t
  simp only [SpeedTuple.numeric, Bool.and_eq_true] at hnum
  obtain ⟨⟨⟨hj, hp⟩, hd⟩, hu⟩ := hnum
  rcases j with _ | _ | jq | _ | _ | _ <;> try simp at hj
  rcases p with _ | _ | pq | _ | _ | _ <;> try simp at hp
  rcases d with _ | _ | dq | _ | _ | _ <;> try simp at hd
  rcases u with _ | _ | uq | _ | _ | _ <;> try simp at hu
  constructor
  · simp [record_speedtest, hexp, hrun, bits_to_megabits, pyFloat]
  · have hle : ¬ (now > now + (env.cache_timeout : ℚ)) := by
      push_neg
      have : (0 : ℚ) ≤ (env.cache_timeout : ℚ) := by exact_mod_cast httl
      linarith
    simp [record_speedtest, hle]

/-- C6 witness: ttl 900, expired cache, both calls at time 0. -/
theorem cache_idempotent_same_now_witness :
    record_speedtest ⟨900, none, 90⟩ (ProcOutcome.fail none) 0 0 ⟨zeroTuple, -1⟩ =
      (⟨zeroTuple, 0 + ((900 : Int) : ℚ)⟩, .ok zeroTuple, true) ∧
    record_speedtest ⟨900, none, 90⟩ (ProcOutcome.fail none) 0 0
        ⟨zeroTuple, 0 + ((900 : Int) : ℚ)⟩ =
      (⟨zeroTuple, 0 + ((900 : Int) : ℚ)⟩, .ok zeroTuple, false) :=
  cache_idempotent_same_now ⟨900, none, 90⟩ (ProcOutcome.fail none)
    (ProcOutcome.fail none) 0 ⟨zeroTuple, -1⟩ zeroTuple rfl rfl
    (by norm_num) (by norm_num)

/-- C7 counterexample: first call at time 0 with an expired cache and
ttl 900, where the second `time.time()` read (line 120) happens at 50
(after the probe): the new deadline is 950, not `now + cache_ttl = 900`.
The deadline is computed from a fresh clock read taken after the probe,
not from the time of the expiry check. -/
theorem refresh_deadline_counterexample :
    ((record_speedtest ⟨900, none, 90⟩ (ProcOutcome.fail none) 0 50
        ⟨zeroTuple, -1⟩).1.speedtest_cache_timeout = 950) ∧
    (950 : ℚ) ≠ 0 + 900 := by
  constructor
  · norm_num [record_speedtest, run_speedtest, zeroTuple, bits_to_megabits, pyFloat]
  · norm_num

/-- C7 (amended): on every refresh where the probe returns a tuple
whose measured components are numbers (as valid tool output yields),
the gauges (the cached entry) are all overwritten with that tuple
regardless of its status — a failed probe is never masked by stale good
data — and the deadline is set to `t_post + cache_ttl`, where `t_post`
is the clock read taken after the probe completes (not the time used
for the expiry check).  For non-numeric components the refresh block
raises instead (line 111 or a `Gauge.set`), writing nothing or a
partial set of gauges and leaving the deadline unchanged. -/
theorem refresh_overwrites_unconditionally (env : EnvConfig) (oc : ProcOutcome)
    (now1 now2 : ℚ) (s : ExporterState) (t : SpeedTuple)
    (hrun : (run_speedtest env.speedtest_server oc).2 = .ok t)
    (hnum : t.numeric = true)
    (hexp : now1 > s.speedtest_cache_timeout) :
    record_speedtest env oc now1 now2 s =
      (⟨t, now2 + (env.cache_timeout : ℚ)⟩, .ok t, true) := by
  obtain ⟨sv, j, p, d, u, st⟩ := t
  simp only [SpeedTuple.numeric, Bool.and_eq_true] at hnum
  obtain ⟨⟨⟨hj, hp⟩, hd⟩, hu⟩ := hnum
  rcases j with _ | _ | jq | _ | _ | _ <;> try simp at hj
  rcases p with _ | _ | pq | _ | _ | _ <;> try simp at hp
  rcases d with _ | _ | dq | _ | _ | _ <;> try simp at hd
  rcases u with _ | _ | uq | _ | _ | _ <;> try simp at hu
  simp [record_speedtest, hexp, hrun, bits_to_megabits, pyFloat]

/-- C7 witness: a failed probe overwrites previously good gauge values
and the status gauge. -/
theorem refresh_overwrites_unconditionally_witness :
    record_speedtest ⟨900, none, 90⟩ (ProcOutcome.fail none) 20 25
        ⟨⟨5, .num 1, .num 2, .num 3, .num 4, 1⟩, 10⟩ =
      (⟨zeroTuple, 25 + ((900 : Int) : ℚ)⟩, .ok zeroTuple, true) :=
  refresh_overwrites_unconditionally ⟨900, none, 90⟩ (ProcOutcome.fail none)
    20 25 ⟨⟨5, .num 1, .num 2, .num 3, .num 4, 1⟩, 10⟩ zeroTuple rfl rfl
    (by norm_num)

/-- C8 counterexample: with `cache_ttl = 0`, a first call at time 0
(expired cache) probes and sets the deadline to 0; a second call whose
clock read is also exactly 0 is served from the cache without a probe,
because line 109 compares with strict `>` — so not every call triggers
a probe when the ttl is zero. -/
theorem zero_ttl_counterexample :
    (record_speedtest ⟨0, none, 90⟩ (ProcOutcome.fail none) 0 0 ⟨zeroTuple, -1⟩ =
      (⟨zeroTuple, 0⟩, .ok zeroTuple, true)) ∧
    (record_speedtest ⟨0, none, 90⟩ (ProcOutcome.fail none) 0 0
        ⟨zeroTuple, 0⟩).2.2 = false := by
  constructor
  · norm_num [record_speedtest, run_speedtest, zeroTuple, bits_to_megabits, pyFloat]
  · norm_num [record_speedtest]

/-- C8 (amended): with a zero or negative ttl, every call whose expiry
check reads a time strictly later than the clock read that set the
current deadline triggers a real probe; only a call at exactly the same
timestamp as the deadline-setting read (possible when ttl = 0) is served
from the cache. -/
theorem nonpositive_ttl_always_probes (env : EnvConfig) (oc : ProcOutcome)
    (now1 now2 prev2 : ℚ) (g : SpeedTuple)
    (httl : env.cache_timeout ≤ 0)
    (hadv : prev2 < now1) :
    (record_speedtest env oc now1 now2
      ⟨g, prev2 + (env.cache_timeout : ℚ)⟩).2.2 = true := by
  have hq : (env.cache_timeout : ℚ) ≤ 0 := by exact_mod_cast httl
  have hgt : now1 > prev2 + (env.cache_timeout : ℚ) := by linarith
  simp only [record_speedtest, hgt, if_true]
  repeat' split
  all_goals rfl

/-- C8 witness: ttl 0, refresh clock read at 0, next call at 1. -/
theorem nonpositive_ttl_always_probes_witness :
    (record_speedtest ⟨0, none, 90⟩ (ProcOutcome.fail none) 1 1
      ⟨zeroTuple, 0 + ((0 : Int) : ℚ)⟩).2.2 = true :=
  nonpositive_ttl_always_probes ⟨0, none, 90⟩ (ProcOutcome.fail none)
    1 1 0 zeroTuple (by norm_num) (by norm_num)

/-- C9: the interleaving in which both request threads execute the
line-109 expiry check before either executes the lines 110-120 refresh
block makes both observe an expired cache and both invoke the probe:
two probe invocations occur, not one.  src/main.py takes no lock;
nothing makes the check-then-act sequence atomic. -/
theorem concurrent_expiry_two_probes :
    (runRace 900 1000 1000 [false, true, false, true]
      ⟨0, 0⟩ .start .start).1.probeCount = 2 := by
  norm_num [runRace, raceStep]

/-- C10: when the parsed output is a result event (an object without an
error field whose type entry equals "result") on which the extraction
chain of lines 90-95 fails — a missing `server`, `ping`, `download` or
`upload` payload field, or a `server.id` that `int(...)` cannot convert
— `run_speedtest` propagates the exception instead of returning a
failure tuple: the result-extraction branch is not total. -/
theorem result_extraction_not_total (sid : Option String)
    (kvs : List (String × Json)) (e : PyExc)
    (herr : objHasKey kvs "error" = false)
    (htv : objGet kvs "type" = some (.str "result"))
    (hfail : extractResult (.obj kvs) = .error e) :
    (run_speedtest sid (ProcOutcome.ok (some (.obj kvs)))).2 = .error e := by
  have htype : objHasKey kvs "type" = true := by
    rw [objHasKey_eq_isSome, htv]
    rfl
  simp +decide [run_speedtest, handle_json, pyContains, pySubscript, herr, htype,
    htv, hfail, Json.eqStr]

/-- C10 witness: a result event with no `server` field raises
`KeyError("server")`. -/
theorem result_extraction_not_total_witness :
    (run_speedtest none (ProcOutcome.ok (some (.obj [("type", .str "result")])))).2 =
      .error (.keyError "server") :=
  result_extraction_not_total none [("type", .str "result")]
    (.keyError "server") rfl rfl rfl
